import Mathlib

/-!
Shallow embedding of `src/src/components/SmartContract/SmartContractProvider.tsx`.

The component ("ContractGateway") owns two pieces of state set once by an
asynchronous `init`: a JSON-RPC `Connection` (`provider`) and a bound
`ContractHandle` (`contract`).  Nine accessor methods wrap calls on the
contract handle, returning `null` (here `Option.none`) when the handle is
unset or when the underlying call throws, and logging each failure once.

The external world (ethers.js, the RPC node, the on-chain contract) is
modelled by an `Env` record of fallible operations; values flowing across
the ABI boundary are modelled by `EthValue`, with `toNumber` reproducing
ethers' BigNumber-to-JS-number conversion (which throws outside the safe
integer range, and throws on non-numeric receivers).  Each accessor also
emits a list of `Event`s recording, in execution order, the underlying
invocation, the completion of the `tx.wait` confirmation step, the
resolution with a transaction record, and every `console.error` log line.
-/

namespace Ronx

/-- Values crossing the contract ABI boundary: BigNumber results, booleans,
strings/addresses, and named tuples (ethers `Result` objects). -/
inductive EthValue where
  | num (n : Int)
  | boolean (b : Bool)
  | str (s : String)
  | tuple (fields : List (String × EthValue))

/-- JavaScript Number.MAX_SAFE_INTEGER, the bound past which ethers
`BigNumber.toNumber()` throws an overflow error. -/
def MAX_SAFE_INTEGER : Int := 9007199254740991

/-- ethers `BigNumber.toNumber()`: succeeds exactly on numeric values within
the JS safe-integer range; calling it on a non-numeric receiver throws. -/
def EthValue.toNumber : EthValue → Except String Int
  | .num n => if n.natAbs ≤ 9007199254740991 then .ok n else .error "overflow"
  | _ => .error "TypeError: toNumber is not a function"

/-- JS property access `v.name`: yields the named field of a tuple result,
`undefined` (here `none`) otherwise.  Property access never throws. -/
def EthValue.getField (v : EthValue) (name : String) : Option EthValue :=
  match v with
  | .tuple fields => List.lookup name fields
  | _ => none

/-- `x.toNumber()` where `x` may be `undefined`: a method call on
`undefined` throws a TypeError. -/
def toNumberOf : Option EthValue → Except String Int
  | none => .error "TypeError: cannot call toNumber of undefined"
  | some v => v.toNumber

/-- An opaque JSON-RPC connection handle (`ethers.providers.JsonRpcProvider`). -/
structure Connection where
  url : String

/-- A transaction-signing identity derived from a connection
(`provider.getSigner()`). -/
structure Signer where
  conn : Connection

/-- `provider.getSigner()`. -/
def Connection.getSigner (c : Connection) : Signer := ⟨c⟩

/-- A bound contract handle (`ethers.Contract`): address, the connection it
reads through, and the signer attached by `connect` (none by default). -/
structure ContractHandle where
  address : String
  conn : Connection
  signer : Option Signer

/-- `contract.connect(signer)`: a new handle with the signer attached; the
original handle is not modified. -/
def ContractHandle.connect (c : ContractHandle) (s : Option Signer) : ContractHandle :=
  { c with signer := s }

/-- A transaction record as returned by a mutating contract call; `tx.wait()`
either yields a receipt or throws, recorded here as `waitResult`. -/
structure TxRecord where
  hash : String
  waitResult : Except String EthValue

/-- The external world: provider construction, contract construction, read
calls and write calls, each fallible (modelling thrown exceptions). -/
structure Env where
  mkProvider : String → Except String Connection
  mkContract : String → Connection → Except String ContractHandle
  call : ContractHandle → String → List EthValue → Except String EthValue
  writeCall : ContractHandle → String → List EthValue → Except String TxRecord

/-- Observable events emitted by the gateway, in execution order. -/
inductive Event where
  | invoke (methodName : String)
  | waitCompleted
  | resolved
  | log (msg : String)
deriving DecidableEq

/-- Whether an event is a `console.error` log line. -/
def Event.isLog : Event → Bool
  | .log _ => true
  | _ => false

/-- Number of log lines in a trace. -/
def logCount (evs : List Event) : Nat :=
  evs.countP Event.isLog

/-- The gateway's React state: the `provider` and `contract` useState cells. -/
structure GatewayState where
  provider : Option Connection
  contract : Option ContractHandle

/-- Result of one accessor call: the resolved value (`none` is the absence
marker), the events emitted, and the gateway state after the call. -/
structure AccResult (α : Type) where
  result : Option α
  events : List Event
  state : GatewayState

def CONTRACT_ADDRESS : String := "0xb2e1eD3394AC2191313A4a9Fcb5B52C4d3c046eF"

def INFURA_PROJECT_ID : String := "54342a1556274e579ef82ed1022b7a7c"

/-- The one-time `init` effect: build the provider (setting it on success),
then the contract handle (setting it on success); any throw is caught and
logged, leaving the remaining cells unset. -/
def init (env : Env) : GatewayState × List Event :=
  match env.mkProvider ("https://bsc-testnet.infura.io/v3/" ++ INFURA_PROJECT_ID) with
  | .error e => (⟨none, none⟩, [.log ("Error initializing provider or contract: " ++ e)])
  | .ok infuraProvider =>
    match env.mkContract CONTRACT_ADDRESS infuraProvider with
    | .error e =>
        (⟨some infuraProvider, none⟩,
         [.log ("Error initializing provider or contract: " ++ e)])
    | .ok contractInstance => (⟨some infuraProvider, some contractInstance⟩, [])

/-- `fetchData(methodName, ...params)`: null if the contract is unset;
otherwise the raw result of the named read call, or null after logging if
it throws. -/
def fetchData (s : GatewayState) (env : Env) (methodName : String)
    (params : List EthValue) : AccResult EthValue :=
  match s.contract with
  | none => ⟨none, [], s⟩
  | some contract =>
    match env.call contract methodName params with
    | .ok result => ⟨some result, [.invoke methodName], s⟩
    | .error e =>
        ⟨none, [.invoke methodName,
                .log ("Error fetching data from " ++ methodName ++ ": " ++ e)], s⟩

/-- `writeData(methodName, ...params)`: null if the contract is unset;
otherwise derives a signer from the provider (undefined if the provider is
unset), connects a signing-capable copy of the handle, invokes the named
mutating method, awaits `tx.wait()`, and resolves with the transaction
record; any throw is caught and logged, resolving null. -/
def writeData (s : GatewayState) (env : Env) (methodName : String)
    (params : List EthValue) : AccResult TxRecord :=
  match s.contract with
  | none => ⟨none, [], s⟩
  | some contract =>
    let signer := s.provider.map Connection.getSigner
    let contractWithSigner := contract.connect signer
    match env.writeCall contractWithSigner methodName params with
    | .error e =>
        ⟨none, [.invoke methodName,
                .log ("Error writing data to " ++ methodName ++ ": " ++ e)], s⟩
    | .ok tx =>
      match tx.waitResult with
      | .error e =>
          ⟨none, [.invoke methodName,
                  .log ("Error writing data to " ++ methodName ++ ": " ++ e)], s⟩
      | .ok _ => ⟨some tx, [.invoke methodName, .waitCompleted, .resolved], s⟩

/-- A normalized user record: `{id, referrer, partnersCount, registrationTime}`.
`referrer` is the raw field (possibly `undefined`, i.e. `none`). -/
structure UserRecord where
  id : Int
  referrer : Option EthValue
  partnersCount : Int
  registrationTime : Int

/-- The body of `users` inside its try block: call `contract.users(addr)`,
then build the record, converting `id`, `partnersCount` and
`registrationTime` with `toNumber()` (each of which may throw) and passing
`referrer` through unchanged. -/
def usersBody (contract : ContractHandle) (env : Env)
    (userAddress : String) : Except String UserRecord :=
  match env.call contract "users" [.str userAddress] with
  | .error e => .error e
  | .ok result =>
    match toNumberOf (result.getField "id") with
    | .error e => .error e
    | .ok id =>
      match toNumberOf (result.getField "partnersCount") with
      | .error e => .error e
      | .ok partnersCount =>
        match toNumberOf (result.getField "registrationTime") with
        | .error e => .error e
        | .ok registrationTime =>
            .ok ⟨id, result.getField "referrer", partnersCount, registrationTime⟩

/-- `users(userAddress)`: null if the contract is unset; otherwise the
normalized user record, or null after logging if anything in the body throws. -/
def users (s : GatewayState) (env : Env) (userAddress : String) :
    AccResult UserRecord :=
  match s.contract with
  | none => ⟨none, [], s⟩
  | some contract =>
    match usersBody contract env userAddress with
    | .ok userData => ⟨some userData, [.invoke "users"], s⟩
    | .error e =>
        ⟨none, [.invoke "users", .log ("Error fetching user details: " ++ e)], s⟩

/-- `usersActiveX3Levels(userAddress, level)`: raw result of the read call
(assumed boolean), or null. -/
def usersActiveX3Levels (s : GatewayState) (env : Env) (userAddress : String)
    (level : Int) : AccResult EthValue :=
  match s.contract with
  | none => ⟨none, [], s⟩
  | some contract =>
    match env.call contract "usersActiveX3Levels" [.str userAddress, .num level] with
    | .ok result => ⟨some result, [.invoke "usersActiveX3Levels"], s⟩
    | .error e =>
        ⟨none, [.invoke "usersActiveX3Levels",
                .log ("Error fetching usersActiveX3Levels: " ++ e)], s⟩

/-- `usersActiveX4Levels(userAddress, level)`: raw result of the read call
(assumed boolean), or null. -/
def usersActiveX4Levels (s : GatewayState) (env : Env) (userAddress : String)
    (level : Int) : AccResult EthValue :=
  match s.contract with
  | none => ⟨none, [], s⟩
  | some contract =>
    match env.call contract "usersActiveX4Levels" [.str userAddress, .num level] with
    | .ok result => ⟨some result, [.invoke "usersActiveX4Levels"], s⟩
    | .error e =>
        ⟨none, [.invoke "usersActiveX4Levels",
                .log ("Error fetching usersActiveX4Levels: " ++ e)], s⟩

/-- `userX3Matrix(userAddress, level)`: the raw result of
`contract.usersX3Matrix`, with no normalization, or null. -/
def userX3Matrix (s : GatewayState) (env : Env) (userAddress : String)
    (level : Int) : AccResult EthValue :=
  match s.contract with
  | none => ⟨none, [], s⟩
  | some contract =>
    match env.call contract "usersX3Matrix" [.str userAddress, .num level] with
    | .ok result => ⟨some result, [.invoke "usersX3Matrix"], s⟩
    | .error e =>
        ⟨none, [.invoke "usersX3Matrix",
                .log ("Error fetching usersX3Matrix: " ++ e)], s⟩

/-- `userX4Matrix(userAddress, level)`: `contract.usersX4Matrix(...)` then
`result.toNumber()`, or null if either throws. -/
def userX4Matrix (s : GatewayState) (env : Env) (userAddress : String)
    (level : Int) : AccResult Int :=
  match s.contract with
  | none => ⟨none, [], s⟩
  | some contract =>
    match ((match env.call contract "usersX4Matrix" [.str userAddress, .num level] with
            | .error e => .error e
            | .ok result => result.toNumber) : Except String Int) with
    | .ok n => ⟨some n, [.invoke "usersX4Matrix"], s⟩
    | .error e =>
        ⟨none, [.invoke "usersX4Matrix",
                .log ("Error fetching userX4Matrix: " ++ e)], s⟩

/-- `getTotalCycles(userAddress, matrix, level)`: the read call then
`cycles.toNumber()`, or null if either throws. -/
def getTotalCycles (s : GatewayState) (env : Env) (userAddress : String)
    (matrix : Int) (level : Int) : AccResult Int :=
  match s.contract with
  | none => ⟨none, [], s⟩
  | some contract =>
    match ((match env.call contract "getTotalCycles"
                   [.str userAddress, .num matrix, .num level] with
            | .error e => .error e
            | .ok cycles => cycles.toNumber) : Except String Int) with
    | .ok n => ⟨some n, [.invoke "getTotalCycles"], s⟩
    | .error e =>
        ⟨none, [.invoke "getTotalCycles",
                .log ("Error fetching total cycles: " ++ e)], s⟩

/-- `getPartnerCount(userAddress, matrix, level)`: the read call then
`partnerCount.toNumber()`, or null if either throws. -/
def getPartnerCount (s : GatewayState) (env : Env) (userAddress : String)
    (matrix : Int) (level : Int) : AccResult Int :=
  match s.contract with
  | none => ⟨none, [], s⟩
  | some contract =>
    match ((match env.call contract "getPartnerCount"
                   [.str userAddress, .num matrix, .num level] with
            | .error e => .error e
            | .ok partnerCount => partnerCount.toNumber) : Except String Int) with
    | .ok n => ⟨some n, [.invoke "getPartnerCount"], s⟩
    | .error e =>
        ⟨none, [.invoke "getPartnerCount",
                .log ("Error fetching partner count: " ++ e)], s⟩

/-- The context value published by the provider component: exactly the nine
accessor methods plus the live provider handle. -/
structure SmartContractContextType where
  fetchData : String → List EthValue → AccResult EthValue
  writeData : String → List EthValue → AccResult TxRecord
  users : String → AccResult UserRecord
  usersActiveX3Levels : String → Int → AccResult EthValue
  usersActiveX4Levels : String → Int → AccResult EthValue
  userX3Matrix : String → Int → AccResult EthValue
  userX4Matrix : String → Int → AccResult Int
  getPartnerCount : String → Int → Int → AccResult Int
  getTotalCycles : String → Int → Int → AccResult Int
  provider : Option Connection

/-- The value `SmartContractProvider` hands to the context: each field is the
corresponding accessor closed over the current state and environment. -/
def mkContextValue (s : GatewayState) (env : Env) : SmartContractContextType :=
  { fetchData := fetchData s env
    writeData := writeData s env
    users := users s env
    usersActiveX3Levels := usersActiveX3Levels s env
    usersActiveX4Levels := usersActiveX4Levels s env
    userX3Matrix := userX3Matrix s env
    userX4Matrix := userX4Matrix s env
    getPartnerCount := getPartnerCount s env
    getTotalCycles := getTotalCycles s env
    provider := s.provider }

/-- `useSmartContract()`: throws when the context is undefined (no provider
mounted), returns the context object otherwise. -/
def useSmartContract (context : Option SmartContractContextType) :
    Except String SmartContractContextType :=
  match context with
  | none => .error "useSmartContract must be used within a SmartContractProvider"
  | some c => .ok c

/-! ### Concrete fixtures used by the witness theorems -/

/-- A concrete connection. -/
def testConn : Connection := ⟨"https://bsc-testnet.infura.io/v3/" ++ INFURA_PROJECT_ID⟩

/-- A concrete bound contract handle. -/
def testHandle : ContractHandle := ⟨CONTRACT_ADDRESS, testConn, none⟩

/-- Gateway state before init has completed: both cells unset. -/
def emptyState : GatewayState := ⟨none, none⟩

/-- Gateway state after successful init. -/
def readyState : GatewayState := ⟨some testConn, some testHandle⟩

/-- An environment in which every external operation throws. -/
def errEnv : Env :=
  ⟨fun _ => .error "boom", fun _ _ => .error "boom",
   fun _ _ _ => .error "boom", fun _ _ _ => .error "boom"⟩

/-- A concrete on-chain user tuple. -/
def usersTuple : EthValue :=
  .tuple [("id", .num 7), ("referrer", .str "0x0000000000000000000000000000000000001234"),
          ("partnersCount", .num 3), ("registrationTime", .num 1700000000)]

/-- A concrete read-call table: `users` yields the tuple, the activity checks
yield booleans, everything else yields a small BigNumber. -/
def okCall (_ : ContractHandle) (m : String) (_ : List EthValue) :
    Except String EthValue :=
  if m = "users" then .ok usersTuple
  else if m = "usersActiveX3Levels" then .ok (.boolean true)
  else if m = "usersActiveX4Levels" then .ok (.boolean false)
  else .ok (.num 5)

/-- A concrete transaction record whose `wait` succeeds. -/
def okTx : TxRecord := ⟨"0xdeadbeef", .ok (.num 1)⟩

/-- An environment in which every external operation succeeds. -/
def okEnv : Env :=
  ⟨fun _ => .ok testConn, fun a c => .ok ⟨a, c, none⟩,
   okCall, fun _ _ _ => .ok okTx⟩

/-! ### Claims -/

/-- C1: for every accessor method (fetchData, writeData, users,
usersActiveX3Levels, usersActiveX4Levels, userX3Matrix, userX4Matrix,
getTotalCycles, getPartnerCount) and every input, if the ContractHandle is
unset, the method returns the absence marker, does not raise (each accessor
is a total function into `Option`), logs nothing and leaves the state
untouched. -/
theorem c1_accessors_null_when_contract_unset (s : GatewayState) (env : Env)
    (methodName : String) (params : List EthValue) (addr : String)
    (matrix level : Int) (h : s.contract = none) :
    fetchData s env methodName params = ⟨none, [], s⟩ ∧
    writeData s env methodName params = ⟨none, [], s⟩ ∧
    users s env addr = ⟨none, [], s⟩ ∧
    usersActiveX3Levels s env addr level = ⟨none, [], s⟩ ∧
    usersActiveX4Levels s env addr level = ⟨none, [], s⟩ ∧
    userX3Matrix s env addr level = ⟨none, [], s⟩ ∧
    userX4Matrix s env addr level = ⟨none, [], s⟩ ∧
    getTotalCycles s env addr matrix level = ⟨none, [], s⟩ ∧
    getPartnerCount s env addr matrix level = ⟨none, [], s⟩ := by
  unfold fetchData writeData users usersActiveX3Levels usersActiveX4Levels
    userX3Matrix userX4Matrix getTotalCycles getPartnerCount
  rw [h]
  exact ⟨rfl, rfl, rfl, rfl, rfl, rfl, rfl, rfl, rfl⟩

/-- Witness for C1 at the pre-init state with concrete arguments. -/
theorem c1_witness :
    emptyState.contract = none ∧
    (fetchData emptyState okEnv "users" [] = ⟨none, [], emptyState⟩ ∧
     writeData emptyState okEnv "registrationExt" [] = ⟨none, [], emptyState⟩ ∧
     users emptyState okEnv "0xabc" = ⟨none, [], emptyState⟩ ∧
     usersActiveX3Levels emptyState okEnv "0xabc" 1 = ⟨none, [], emptyState⟩ ∧
     usersActiveX4Levels emptyState okEnv "0xabc" 1 = ⟨none, [], emptyState⟩ ∧
     userX3Matrix emptyState okEnv "0xabc" 1 = ⟨none, [], emptyState⟩ ∧
     userX4Matrix emptyState okEnv "0xabc" 1 = ⟨none, [], emptyState⟩ ∧
     getTotalCycles emptyState okEnv "0xabc" 1 1 = ⟨none, [], emptyState⟩ ∧
     getPartnerCount emptyState okEnv "0xabc" 1 1 = ⟨none, [], emptyState⟩) :=
  ⟨rfl, c1_accessors_null_when_contract_unset emptyState okEnv "users" [] "0xabc" 1 1 rfl⟩

/-- C9: no accessor method modifies the provider or contract state, on
either the success or the error path; in particular `writeData` leaves the
stored contract handle in place while using a separately connected copy.
Only `init` produces a new state. -/
theorem c9_accessors_preserve_state (s : GatewayState) (env : Env)
    (methodName : String) (params : List EthValue) (addr : String)
    (matrix level : Int) :
    (fetchData s env methodName params).state = s ∧
    (writeData s env methodName params).state = s ∧
    (users s env addr).state = s ∧
    (usersActiveX3Levels s env addr level).state = s ∧
    (usersActiveX4Levels s env addr level).state = s ∧
    (userX3Matrix s env addr level).state = s ∧
    (userX4Matrix s env addr level).state = s ∧
    (getTotalCycles s env addr matrix level).state = s ∧
    (getPartnerCount s env addr matrix level).state = s := by
  refine ⟨?_, ?_, ?_, ?_, ?_, ?_, ?_, ?_, ?_⟩ <;>
    (simp only [fetchData, writeData, users, usersActiveX3Levels, usersActiveX4Levels,
       userX3Matrix, userX4Matrix, getTotalCycles, getPartnerCount]
     repeat first | rfl | split)

/-- C2: for every accessor method, if the underlying contract call throws,
the accessor does not propagate the exception: it resolves to the absence
marker, and exactly one failure log line is emitted for that failed call. -/
theorem c2_call_throws_null_and_one_log (s : GatewayState) (env : Env)
    (methodName : String) (params : List EthValue) (addr : String)
    (matrix level : Int) (c : ContractHandle) (err : String)
    (hc : s.contract = some c)
    (hcall : ∀ ch m ps, env.call ch m ps = .error err)
    (hwrite : ∀ ch m ps, env.writeCall ch m ps = .error err) :
    ((fetchData s env methodName params).result = none ∧
       logCount (fetchData s env methodName params).events = 1) ∧
    ((writeData s env methodName params).result = none ∧
       logCount (writeData s env methodName params).events = 1) ∧
    ((users s env addr).result = none ∧
       logCount (users s env addr).events = 1) ∧
    ((usersActiveX3Levels s env addr level).result = none ∧
       logCount (usersActiveX3Levels s env addr level).events = 1) ∧
    ((usersActiveX4Levels s env addr level).result = none ∧
       logCount (usersActiveX4Levels s env addr level).events = 1) ∧
    ((userX3Matrix s env addr level).result = none ∧
       logCount (userX3Matrix s env addr level).events = 1) ∧
    ((userX4Matrix s env addr level).result = none ∧
       logCount (userX4Matrix s env addr level).events = 1) ∧
    ((getTotalCycles s env addr matrix level).result = none ∧
       logCount (getTotalCycles s env addr matrix level).events = 1) ∧
    ((getPartnerCount s env addr matrix level).result = none ∧
       logCount (getPartnerCount s env addr matrix level).events = 1) := by
  simp [fetchData, writeData, users, usersBody, usersActiveX3Levels,
    usersActiveX4Levels, userX3Matrix, userX4Matrix, getTotalCycles,
    getPartnerCount, hc, hcall, hwrite, logCount, Event.isLog]

/-- Witness for C2: the all-throwing environment against the post-init state. -/
theorem c2_witness :
    readyState.contract = some testHandle ∧
    ((fetchData readyState errEnv "users" []).result = none ∧
       logCount (fetchData readyState errEnv "users" []).events = 1) ∧
    ((writeData readyState errEnv "registrationExt" []).result = none ∧
       logCount (writeData readyState errEnv "registrationExt" []).events = 1) ∧
    ((users readyState errEnv "0xabc").result = none ∧
       logCount (users readyState errEnv "0xabc").events = 1) ∧
    ((usersActiveX3Levels readyState errEnv "0xabc" 1).result = none ∧
       logCount (usersActiveX3Levels readyState errEnv "0xabc" 1).events = 1) ∧
    ((usersActiveX4Levels readyState errEnv "0xabc" 1).result = none ∧
       logCount (usersActiveX4Levels readyState errEnv "0xabc" 1).events = 1) ∧
    ((userX3Matrix readyState errEnv "0xabc" 1).result = none ∧
       logCount (userX3Matrix readyState errEnv "0xabc" 1).events = 1) ∧
    ((userX4Matrix readyState errEnv "0xabc" 1).result = none ∧
       logCount (userX4Matrix readyState errEnv "0xabc" 1).events = 1) ∧
    ((getTotalCycles readyState errEnv "0xabc" 1 1).result = none ∧
       logCount (getTotalCycles readyState errEnv "0xabc" 1 1).events = 1) ∧
    ((getPartnerCount readyState errEnv "0xabc" 1 1).result = none ∧
       logCount (getPartnerCount readyState errEnv "0xabc" 1 1).events = 1) :=
  ⟨rfl, c2_call_throws_null_and_one_log readyState errEnv "registrationExt" [] "0xabc"
    1 1 testHandle "boom" rfl (fun _ _ _ => rfl) (fun _ _ _ => rfl)⟩

/-- C3: `writeData` resolves with a transaction record only after the
confirmation step has completed: whenever it returns `some tx`, the event
trace contains `waitCompleted` strictly before `resolved`, and the returned
record's `wait` outcome is a receipt (not an exception). -/
theorem c3_write_resolves_only_after_wait (s : GatewayState) (env : Env)
    (methodName : String) (params : List EthValue) (tx : TxRecord)
    (h : (writeData s env methodName params).result = some tx) :
    List.Sublist [Event.waitCompleted, Event.resolved]
      (writeData s env methodName params).events ∧
    ∃ receipt, tx.waitResult = .ok receipt := by
  cases hc : s.contract with
  | none => simp [writeData, hc] at h
  | some contract =>
    cases hw : env.writeCall (contract.connect (s.provider.map Connection.getSigner))
        methodName params with
    | error e => simp [writeData, hc, hw] at h
    | ok tx2 =>
      cases hwait : tx2.waitResult with
      | error e => simp [writeData, hc, hw, hwait] at h
      | ok receipt =>
        have hres : writeData s env methodName params =
            ⟨some tx2, [.invoke methodName, .waitCompleted, .resolved], s⟩ := by
          simp [writeData, hc, hw, hwait]
        rw [hres] at h
        cases h
        rw [hres]
        exact ⟨List.Sublist.cons _ (List.Sublist.refl _), receipt, hwait⟩

/-- Witness for C3: a successful write in the all-succeeding environment. -/
theorem c3_witness :
    (writeData readyState okEnv "registrationExt" []).result = some okTx ∧
    (List.Sublist [Event.waitCompleted, Event.resolved]
       (writeData readyState okEnv "registrationExt" []).events ∧
     ∃ receipt, okTx.waitResult = .ok receipt) :=
  ⟨rfl, c3_write_resolves_only_after_wait readyState okEnv "registrationExt" [] okTx rfl⟩

/-- C4: after successful initialization, when the user lookup succeeds and
yields a tuple whose numeric fields are within the safe-integer range,
`users(addr)` returns a record whose `id`, `partnersCount` and
`registrationTime` equal the raw on-chain values exactly (lossless
conversion) and whose `referrer` is the raw field passed through unchanged. -/
theorem c4_users_normalizes_losslessly (s : GatewayState) (env : Env)
    (addr : String) (c : ContractHandle) (res : EthValue)
    (idv pcv rtv : Int) (ref : EthValue)
    (hc : s.contract = some c)
    (hcall : env.call c "users" [.str addr] = .ok res)
    (hid : res.getField "id" = some (.num idv))
    (href : res.getField "referrer" = some ref)
    (hpc : res.getField "partnersCount" = some (.num pcv))
    (hrt : res.getField "registrationTime" = some (.num rtv))
    (hidr : idv.natAbs ≤ 9007199254740991)
    (hpcr : pcv.natAbs ≤ 9007199254740991)
    (hrtr : rtv.natAbs ≤ 9007199254740991) :
    (users s env addr).result =
      some { id := idv, referrer := some ref,
             partnersCount := pcv, registrationTime := rtv } := by
  simp [users, hc, usersBody, hcall, hid, href, hpc, hrt,
        toNumberOf, EthValue.toNumber, hidr, hpcr, hrtr]

/-- Witness for C4: the concrete user tuple in the all-succeeding environment. -/
theorem c4_witness :
    readyState.contract = some testHandle ∧
    okEnv.call testHandle "users" [.str "0xabc"] = .ok usersTuple ∧
    usersTuple.getField "id" = some (.num 7) ∧
    usersTuple.getField "referrer" =
      some (.str "0x0000000000000000000000000000000000001234") ∧
    usersTuple.getField "partnersCount" = some (.num 3) ∧
    usersTuple.getField "registrationTime" = some (.num 1700000000) ∧
    (users readyState okEnv "0xabc").result =
      some { id := 7,
             referrer := some (.str "0x0000000000000000000000000000000000001234"),
             partnersCount := 3, registrationTime := 1700000000 } :=
  ⟨rfl, rfl, rfl, rfl, rfl, rfl,
   c4_users_normalizes_losslessly readyState okEnv "0xabc" testHandle usersTuple
     7 3 1700000000 (.str "0x0000000000000000000000000000000000001234")
     rfl rfl rfl rfl rfl rfl (by decide) (by decide) (by decide)⟩

/-- C5: `userX4Matrix`, `getTotalCycles` and `getPartnerCount` return the
BigNumber yielded by the underlying read call normalized to a standard
integer (when it is within the safe range), and the absence marker when the
underlying call throws. -/
theorem c5_numeric_accessors_normalize (s : GatewayState) (env efail : Env)
    (addr : String) (matrix level : Int) (c : ContractHandle)
    (n1 n2 n3 : Int) (err : String)
    (hc : s.contract = some c)
    (h4 : env.call c "usersX4Matrix" [.str addr, .num level] = .ok (.num n1))
    (h4r : n1.natAbs ≤ 9007199254740991)
    (htc : env.call c "getTotalCycles" [.str addr, .num matrix, .num level] =
      .ok (.num n2))
    (htcr : n2.natAbs ≤ 9007199254740991)
    (hpc : env.call c "getPartnerCount" [.str addr, .num matrix, .num level] =
      .ok (.num n3))
    (hpcr : n3.natAbs ≤ 9007199254740991)
    (hfail : ∀ ch m ps, efail.call ch m ps = .error err) :
    (userX4Matrix s env addr level).result = some n1 ∧
    (getTotalCycles s env addr matrix level).result = some n2 ∧
    (getPartnerCount s env addr matrix level).result = some n3 ∧
    (userX4Matrix s efail addr level).result = none ∧
    (getTotalCycles s efail addr matrix level).result = none ∧
    (getPartnerCount s efail addr matrix level).result = none := by
  simp [userX4Matrix, getTotalCycles, getPartnerCount, hc, h4, htc, hpc,
        EthValue.toNumber, h4r, htcr, hpcr, hfail]

/-- Witness for C5 at a concrete BigNumber result of 5. -/
theorem c5_witness :
    readyState.contract = some testHandle ∧
    okEnv.call testHandle "usersX4Matrix" [.str "0xabc", .num 1] = .ok (.num 5) ∧
    okEnv.call testHandle "getTotalCycles" [.str "0xabc", .num 1, .num 2] =
      .ok (.num 5) ∧
    okEnv.call testHandle "getPartnerCount" [.str "0xabc", .num 1, .num 2] =
      .ok (.num 5) ∧
    ((userX4Matrix readyState okEnv "0xabc" 1).result = some 5 ∧
     (getTotalCycles readyState okEnv "0xabc" 1 2).result = some 5 ∧
     (getPartnerCount readyState okEnv "0xabc" 1 2).result = some 5 ∧
     (userX4Matrix readyState errEnv "0xabc" 1).result = none ∧
     (getTotalCycles readyState errEnv "0xabc" 1 2).result = none ∧
     (getPartnerCount readyState errEnv "0xabc" 1 2).result = none) :=
  ⟨rfl, rfl, rfl, rfl,
   c5_numeric_accessors_normalize readyState okEnv errEnv "0xabc" 1 2 testHandle
     5 5 5 "boom" rfl rfl (by decide) rfl (by decide) rfl (by decide)
     (fun _ _ _ => rfl)⟩

/-- C6: for every address and level in the schema range 1..N,
`usersActiveX3Levels` and `usersActiveX4Levels` return exactly the boolean
yielded by the underlying read call, and the absence marker on failure. -/
theorem c6_active_levels_exact_boolean (s : GatewayState) (env efail : Env)
    (addr : String) (level N : Int) (c : ContractHandle) (b3 b4 : Bool)
    (err : String)
    (hlevel : 1 ≤ level ∧ level ≤ N)
    (hc : s.contract = some c)
    (h3 : env.call c "usersActiveX3Levels" [.str addr, .num level] =
      .ok (.boolean b3))
    (h4 : env.call c "usersActiveX4Levels" [.str addr, .num level] =
      .ok (.boolean b4))
    (hfail : ∀ ch m ps, efail.call ch m ps = .error err) :
    (usersActiveX3Levels s env addr level).result = some (.boolean b3) ∧
    (usersActiveX4Levels s env addr level).result = some (.boolean b4) ∧
    (usersActiveX3Levels s efail addr level).result = none ∧
    (usersActiveX4Levels s efail addr level).result = none := by
  simp [usersActiveX3Levels, usersActiveX4Levels, hc, h3, h4, hfail]

/-- Witness for C6 at level 1 of a 12-level schema. -/
theorem c6_witness :
    ((1 : Int) ≤ 1 ∧ (1 : Int) ≤ 12) ∧
    readyState.contract = some testHandle ∧
    okEnv.call testHandle "usersActiveX3Levels" [.str "0xabc", .num 1] =
      .ok (.boolean true) ∧
    okEnv.call testHandle "usersActiveX4Levels" [.str "0xabc", .num 1] =
      .ok (.boolean false) ∧
    ((usersActiveX3Levels readyState okEnv "0xabc" 1).result =
       some (.boolean true) ∧
     (usersActiveX4Levels readyState okEnv "0xabc" 1).result =
       some (.boolean false) ∧
     (usersActiveX3Levels readyState errEnv "0xabc" 1).result = none ∧
     (usersActiveX4Levels readyState errEnv "0xabc" 1).result = none) :=
  ⟨⟨by decide, by decide⟩, rfl, rfl, rfl,
   c6_active_levels_exact_boolean readyState okEnv errEnv "0xabc" 1 12 testHandle
     true false "boom" ⟨by decide, by decide⟩ rfl rfl rfl (fun _ _ _ => rfl)⟩

/-- C7: `userX3Matrix` returns the raw result of `contract.usersX3Matrix`
with no numeric normalization applied, and the absence marker on failure. -/
theorem c7_x3matrix_raw_result (s : GatewayState) (env efail : Env)
    (addr : String) (level : Int) (c : ContractHandle) (v : EthValue)
    (err : String)
    (hc : s.contract = some c)
    (hcall : env.call c "usersX3Matrix" [.str addr, .num level] = .ok v)
    (hfail : ∀ ch m ps, efail.call ch m ps = .error err) :
    (userX3Matrix s env addr level).result = some v ∧
    (userX3Matrix s efail addr level).result = none := by
  simp [userX3Matrix, hc, hcall, hfail]

/-- Witness for C7: the raw BigNumber comes back unconverted. -/
theorem c7_witness :
    readyState.contract = some testHandle ∧
    okEnv.call testHandle "usersX3Matrix" [.str "0xabc", .num 1] = .ok (.num 5) ∧
    ((userX3Matrix readyState okEnv "0xabc" 1).result = some (.num 5) ∧
     (userX3Matrix readyState errEnv "0xabc" 1).result = none) :=
  ⟨rfl, rfl,
   c7_x3matrix_raw_result readyState okEnv errEnv "0xabc" 1 testHandle
     (.num 5) "boom" rfl rfl (fun _ _ _ => rfl)⟩

/-- C8: `fetchData` invokes the read method of the given name with the given
parameters and returns the raw result unmodified, and the absence marker on
failure. -/
theorem c8_fetchData_raw_dispatch (s : GatewayState) (env efail : Env)
    (methodName : String) (params : List EthValue) (c : ContractHandle)
    (v : EthValue) (err : String)
    (hc : s.contract = some c)
    (hcall : env.call c methodName params = .ok v)
    (hfail : ∀ ch m ps, efail.call ch m ps = .error err) :
    (fetchData s env methodName params).result = some v ∧
    (fetchData s env methodName params).events =
      [Event.invoke methodName] ∧
    (fetchData s efail methodName params).result = none := by
  simp [fetchData, hc, hcall, hfail]

/-- Witness for C8 at an arbitrary method name. -/
theorem c8_witness :
    readyState.contract = some testHandle ∧
    okEnv.call testHandle "lastUserId" [] = .ok (.num 5) ∧
    ((fetchData readyState okEnv "lastUserId" []).result = some (.num 5) ∧
     (fetchData readyState okEnv "lastUserId" []).events =
       [Event.invoke "lastUserId"] ∧
     (fetchData readyState errEnv "lastUserId" []).result = none) :=
  ⟨rfl, rfl,
   c8_fetchData_raw_dispatch readyState okEnv errEnv "lastUserId" [] testHandle
     (.num 5) "boom" rfl rfl (fun _ _ _ => rfl)⟩

/-- C10: `useSmartContract` throws when no provider is mounted (context
undefined) and otherwise returns the context object, whose fields are
exactly the nine accessors plus the live provider handle. -/
theorem c10_hook_throws_or_returns_context (s : GatewayState) (env : Env) :
    useSmartContract none =
      Except.error "useSmartContract must be used within a SmartContractProvider" ∧
    useSmartContract (some (mkContextValue s env)) = Except.ok (mkContextValue s env) ∧
    (mkContextValue s env).fetchData = fetchData s env ∧
    (mkContextValue s env).writeData = writeData s env ∧
    (mkContextValue s env).users = users s env ∧
    (mkContextValue s env).usersActiveX3Levels = usersActiveX3Levels s env ∧
    (mkContextValue s env).usersActiveX4Levels = usersActiveX4Levels s env ∧
    (mkContextValue s env).userX3Matrix = userX3Matrix s env ∧
    (mkContextValue s env).userX4Matrix = userX4Matrix s env ∧
    (mkContextValue s env).getTotalCycles = getTotalCycles s env ∧
    (mkContextValue s env).getPartnerCount = getPartnerCount s env ∧
    (mkContextValue s env).provider = s.provider :=
  ⟨rfl, rfl, rfl, rfl, rfl, rfl, rfl, rfl, rfl, rfl, rfl, rfl⟩

end Ronx
